import Mathlib

/-!
Verification of the job-claiming and generation-reliability subsystem of the
danbooru-ml-classifier repository.

The Python sources are embedded shallowly:

* `worker/vlm_utils.py` — `parse_moderation_rating`, `detect_repetition_loop`
  (texts are modelled as `List Char`, matching Python's per-code-point string
  indexing and slicing).
* `worker/vlm_captioner.py` — the generation retry loop
  `chat_with_image_llama_api`, `parse_age_estimation`, `save_to_firestore`.
* `worker/main.py` — `update_status_processing` and the pending-count gate of
  `onImageCreated` (the claim coordinator).
* `worker/backfill_age_estimation.py` — `process_image_age_estimation`.
* `worker/backfill_pixai_tags.py` — `check_if_tags_exist`,
  `save_pixai_tags_to_firestore` and the skip-existing step of the driver loop.

External collaborators (HTTP server, Firestore, the JSON library, the neural
networks) are modelled as explicit parameters or as explicit state passing on
a `Store` value; the control flow and data manipulation around them is
translated from the source.
-/

/-! ## Python string helpers

Python `str` values are modelled as `List Char`.  `str.split()` splits on runs
of whitespace and discards empty pieces; `str.strip()` removes leading and
trailing whitespace; `' '.join(ws)` interleaves single spaces.
-/

/-- Auxiliary scanner for `str.split()`: `acc` holds the current word reversed. -/
def splitWsAux : List Char → List Char → List (List Char)
  | [], [] => []
  | [], acc => [acc.reverse]
  | ch :: rest, acc =>
    if ch.isWhitespace then
      if acc = [] then splitWsAux rest []
      else acc.reverse :: splitWsAux rest []
    else splitWsAux rest (ch :: acc)

/-- Python `text.split()` (split on whitespace runs, no empty words). -/
def splitWhitespace (text : List Char) : List (List Char) :=
  splitWsAux text []

/-- Python `' '.join(words)`. -/
def joinSpaces (words : List (List Char)) : List Char :=
  List.intercalate [' '] words

/-- Python `s.strip()` on a `List Char`. -/
def pyStripList (s : List Char) : List Char :=
  ((s.dropWhile Char.isWhitespace).reverse.dropWhile Char.isWhitespace).reverse

/-- Python `s.strip()` on a `String`. -/
def pyStrip (s : String) : String :=
  (pyStripList s.toList).asString

/-- Python `range(a, b)` as a list. -/
def pyRange (a b : Nat) : List Nat :=
  (List.range (b - a)).map (· + a)

/-! ## `worker/vlm_utils.py` -/

/-- Configuration constant `MIN_REPETITION_LENGTH` from `vlm_utils.py`. -/
def MIN_REPETITION_LENGTH : Nat := 10

/-- Configuration constant `REPETITION_THRESHOLD` from `vlm_utils.py`. -/
def REPETITION_THRESHOLD : Nat := 3

/-- Index just past the first occurrence of `pat` in `cs`, if any
(helper for the regex scan of `parse_moderation_rating`). -/
def dropThroughFirst (pat : List Char) : List Char → Option (List Char)
  | [] => if pat = [] then some [] else none
  | c :: rest =>
    if pat.isPrefixOf (c :: rest) then some ((c :: rest).drop pat.length)
    else dropThroughFirst pat rest

/-- Fuel-driven model of `re.sub(r'<think>.*?</think>', '', text,
flags=re.DOTALL)`: removes every non-greedy `<think>...</think>` block,
scanning left to right.  A `<think>` with no later `</think>` does not match
and is kept verbatim (any later `<think>` then has no closing tag after it
either).  Every recursive call strictly shortens the text (a removed block
spans at least 15 characters, a kept character one), so fuel
`text.length + 1` is always sufficient. -/
def removeThinkBlocksGo : Nat → List Char → List Char
  | 0, cs => cs
  | _fuel + 1, [] => []
  | fuel + 1, c :: rest =>
    if "<think>".toList.isPrefixOf (c :: rest) then
      match dropThroughFirst "</think>".toList ((c :: rest).drop 7) with
      | some suffix => removeThinkBlocksGo fuel suffix
      | none => c :: rest
    else c :: removeThinkBlocksGo fuel rest

/-- Removal of `<think>` blocks, first step of `parse_moderation_rating`. -/
def removeThinkBlocks (text : List Char) : List Char :=
  removeThinkBlocksGo (text.length + 1) text

/-- Digits-to-number conversion, Python `int()` on a nonempty digit string. -/
def digitsToNat (ds : List Char) : Nat :=
  ds.foldl (fun acc d => acc * 10 + (d.toNat - '0'.toNat)) 0

/-- Model of `re.search(r'\[\[(\d+)\]\]', text)` followed by `int(group(1))`:
the scan looks, left to right, for `[[`, then a maximal nonempty digit run,
then `]]`. -/
def findBracketRating : List Char → Option Nat
  | [] => none
  | c :: rest =>
    (match c :: rest with
     | '[' :: '[' :: tail =>
       let ds := tail.takeWhile Char.isDigit
       if ds ≠ [] ∧ "]]".toList.isPrefixOf (tail.drop ds.length) then
         some (digitsToNat ds)
       else none
     | _ => none).orElse (fun _ => findBracketRating rest)

/-- `parse_moderation_rating` from `vlm_utils.py`: strip `<think>` blocks,
then extract the first `[[N]]` rating, if any. -/
def parse_moderation_rating (raw_result : List Char) : Option Nat :=
  findBracketRating (removeThinkBlocks raw_result)

/-- Fuel-driven translation of the inner `while` loop of strategy 1 of
`detect_repetition_loop`: counts how many consecutive copies of `phrase`
(as space-joined `seqLen`-word windows) appear in `words` starting at word
index `pos`.  Fuel `words.length + 1` is always sufficient since each
iteration advances `pos` by `seqLen ≥ 3`. -/
def countWordRepsGo (words : List (List Char)) (phrase : List Char) (seqLen : Nat) :
    Nat → Nat → Nat
  | 0, _ => 0
  | fuel + 1, pos =>
    if pos + seqLen ≤ words.length ∧ joinSpaces ((words.drop pos).take seqLen) = phrase then
      1 + countWordRepsGo words phrase seqLen fuel (pos + seqLen)
    else 0

/-- Consecutive-repetition counter of strategy 1 (starting value of the Python
loop is added by the caller). -/
def countWordReps (words : List (List Char)) (phrase : List Char) (seqLen pos : Nat) : Nat :=
  countWordRepsGo words phrase seqLen (words.length + 1) pos

/-- Fuel-driven translation of the inner `while` loop of strategy 2 of
`detect_repetition_loop`: counts consecutive copies of the character slice
`pat` in `text` starting at index `pos`, stepping by `patLen ≥ 2`. -/
def countCharRepsGo (text pat : List Char) (patLen : Nat) : Nat → Nat → Nat
  | 0, _ => 0
  | fuel + 1, pos =>
    if pos + patLen ≤ text.length ∧ (text.drop pos).take patLen = pat then
      1 + countCharRepsGo text pat patLen fuel (pos + patLen)
    else 0

/-- Consecutive-repetition counter of strategy 2. -/
def countCharReps (text pat : List Char) (patLen pos : Nat) : Nat :=
  countCharRepsGo text pat patLen (text.length + 1) pos

/-- Body of the doubly-nested loop of strategy 1 at window `(seqLen, i)`:
`continue` when the phrase is shorter than `minLength`, report `(phrase,
count)` when at least `threshold` consecutive repetitions are found. -/
def s1Check (words : List (List Char)) (minLength threshold seqLen i : Nat) :
    Option (List Char × Nat) :=
  let phrase := joinSpaces ((words.drop i).take seqLen)
  if phrase.length < minLength then none
  else
    let cnt := 1 + countWordReps words phrase seqLen (i + seqLen)
    if threshold ≤ cnt then some (phrase, cnt) else none

/-- Strategy 1 of `detect_repetition_loop`: word n-gram repetition.  Only runs
when the text splits into at least 5 words; scans sequence lengths
`3 .. min(50, len(words) // threshold)` (outer loop) and start positions
`0 .. len(words) - seq_len * threshold - 1` (inner loop), returning at the
first hit. -/
def strategy1 (words : List (List Char)) (minLength threshold : Nat) :
    Option (List Char × Nat) :=
  if 5 ≤ words.length then
    (pyRange 3 (min 51 (words.length / threshold + 1))).findSome? (fun seqLen =>
      (List.range (words.length - seqLen * threshold)).findSome? (fun i =>
        s1Check words minLength threshold seqLen i))
  else none

/-- Body of the doubly-nested loop of strategy 2 at window `(patLen, i)`:
report `(pattern, count)` when at least `threshold * 2` consecutive
repetitions are found. -/
def s2Check (text : List Char) (threshold patLen i : Nat) : Option (List Char × Nat) :=
  let pat := (text.drop i).take patLen
  let cnt := 1 + countCharReps text pat patLen (i + patLen)
  if threshold * 2 ≤ cnt then some (pat, cnt) else none

/-- Strategy 2 of `detect_repetition_loop`: short character-pattern
repetition, pattern lengths `2 .. 19` (outer loop), start positions
`0 .. len(text) - pattern_len * threshold - 1` (inner loop). -/
def strategy2 (text : List Char) (threshold : Nat) : Option (List Char × Nat) :=
  (pyRange 2 20).findSome? (fun patLen =>
    (List.range (text.length - patLen * threshold)).findSome? (fun i =>
      s2Check text threshold patLen i))

/-- Fuel-driven translation of the `while` loop of strategy 3 of
`detect_repetition_loop`: scans for a non-whitespace character repeated 30 or
more times consecutively; whitespace advances by one, a counted run is
skipped whole.  Fuel `text.length` suffices since each step consumes at least
one character. -/
def strategy3Go : Nat → List Char → Option (List Char × Nat)
  | 0, _ => none
  | _fuel + 1, [] => none
  | fuel + 1, c :: rest =>
    if ¬ c.isWhitespace then
      let run := 1 + (rest.takeWhile (· = c)).length
      if 30 ≤ run then some ([c], run)
      else strategy3Go fuel (rest.drop (run - 1))
    else strategy3Go fuel rest

/-- Strategy 3 of `detect_repetition_loop`: single-character runs, only
attempted on texts of length at least 30. -/
def strategy3 (text : List Char) : Option (List Char × Nat) :=
  if 30 ≤ text.length then strategy3Go text.length text else none

/-- `detect_repetition_loop` from `vlm_utils.py`: returns
`(is_repetitive, repeated_phrase, count)`; not-repetitive immediately for
empty or short text, otherwise strategies 1, 2, 3 in order, first hit wins. -/
def detect_repetition_loop (text : List Char)
    (minLength : Nat := MIN_REPETITION_LENGTH)
    (threshold : Nat := REPETITION_THRESHOLD) : Bool × Option (List Char) × Nat :=
  if text = [] ∨ text.length < minLength * threshold then (false, none, 0)
  else
    let words := splitWhitespace text
    match strategy1 words minLength threshold with
    | some (p, c) => (true, some p, c)
    | none =>
      match strategy2 text threshold with
      | some (p, c) => (true, some p, c)
      | none =>
        match strategy3 text with
        | some (p, c) => (true, some p, c)
        | none => (false, none, 0)

/-! ## `worker/vlm_captioner.py` — generation retry engine

The llama-server is an external collaborator; it is modelled as a function
from (attempt index, request) to an abstract transport result.  The detector
is passed as a parameter (the production instantiation is
`detect_repetition_loop`); the base64-encoded image is taken as given (file
reading and base64 encoding are out of scope). -/

/-- Outcome of one HTTP POST to `/v1/chat/completions`: either a response
with a status code and (when the JSON body has a `choices` key) the list of
choice message contents, or a raised transport exception. -/
inductive ServerResult where
  | response (status : Nat) (choices : Option (List String))
  | exn
deriving DecidableEq

/-- One entry of the `messages` argument of `chat_with_image_llama_api`. -/
structure ChatMessage where
  role : String
  content : String
deriving DecidableEq

/-- One entry of the `api_messages` list actually sent: the first user message
carries the base64 image data URI alongside its text. -/
structure ApiMessage where
  role : String
  text : String
  imageBase64 : Option String
deriving DecidableEq

/-- Request body of `/v1/chat/completions` as built inside the retry loop. -/
structure GenRequest where
  messages : List ApiMessage
  max_tokens : Nat
  temperature : ℚ
  top_p : ℚ
  stream : Bool
deriving DecidableEq

/-- Construction of `api_messages`: the first message, when a user message,
gets the image embedded; all others are passed through. -/
def buildApiMessages (imageBase64 : String) (messages : List ChatMessage) : List ApiMessage :=
  messages.enum.map (fun p =>
    if p.1 = 0 ∧ p.2.role = "user" then
      { role := "user", text := p.2.content, imageBase64 := some imageBase64 }
    else
      { role := p.2.role, text := p.2.content, imageBase64 := none })

/-- Request built on attempt `attempt` (0-based): `temperature = 0.7 +
attempt * 0.05` capped at `1.0`, `top_p = 0.8 + attempt * 0.05` capped at
`0.95`, `max_tokens = 4096`, `stream = false`. -/
def mkRequest (messages : List ChatMessage) (imageBase64 : String) (attempt : Nat) :
    GenRequest :=
  let temperature : ℚ := 0.7 + (attempt : ℚ) * 0.05
  let top_p : ℚ := 0.8 + (attempt : ℚ) * 0.05
  { messages := buildApiMessages imageBase64 messages
    max_tokens := 4096
    temperature := min temperature 1.0
    top_p := min top_p 0.95
    stream := false }

/-- The retry loop of `chat_with_image_llama_api`, one list element per value
of the Python loop variable `attempt`.  A transport exception or a non-200
status returns `none` immediately; a 200 response without a nonempty
`choices` list falls through to the next attempt; a 200 response with
content consults the detector: repetitive content retries while
`attempt < max_retries - 1` and is returned anyway on the final attempt. -/
def runAttempts (server : Nat → GenRequest → ServerResult)
    (det : String → Bool × Option String × Nat)
    (messages : List ChatMessage) (imageBase64 : String) (maxRetries : Nat) :
    List Nat → Option String
  | [] => none
  | attempt :: rest =>
    match server attempt (mkRequest messages imageBase64 attempt) with
    | .exn => none
    | .response status choices =>
      if status = 200 then
        match choices with
        | some (c :: _) =>
          let content := pyStrip c
          if (det content).1 then
            if attempt < maxRetries - 1 then
              runAttempts server det messages imageBase64 maxRetries rest
            else some content
          else some content
        | _ => runAttempts server det messages imageBase64 maxRetries rest
      else none

/-- `chat_with_image_llama_api` from `vlm_captioner.py` (`MAX_RETRIES = 3`
default), with the server and the repetition detector as parameters. -/
def chat_with_image_llama_api (server : Nat → GenRequest → ServerResult)
    (det : String → Bool × Option String × Nat)
    (messages : List ChatMessage) (imageBase64 : String)
    (maxRetries : Nat := 3) : Option String :=
  runAttempts server det messages imageBase64 maxRetries (List.range maxRetries)

/-- A transport-level failure: a raised exception or a non-200 status. -/
def transportFailure : ServerResult → Bool
  | .exn => true
  | .response status _ => status ≠ 200

/-- A 200 response whose JSON body lacks a nonempty `choices` list. -/
def emptyChoices200 : ServerResult → Bool
  | .response status choices =>
    decide (status = 200) &&
      (match choices with
       | none => true
       | some [] => true
       | some (_ :: _) => false)
  | .exn => false

/-- The server outcomes on which the loop iteration at index `j` advances to
the next attempt instead of returning: a 200 response without choices, or a
200 response whose content the detector flags while attempts remain. -/
def attemptAdvances (det : String → Bool × Option String × Nat)
    (maxRetries j : Nat) : ServerResult → Bool
  | .response status choices =>
    decide (status = 200) &&
      (match choices with
       | some (c :: _) => (det (pyStrip c)).1 && decide (j < maxRetries - 1)
       | _ => true)
  | .exn => false

/-! ## Document store model

Firestore documents of the `images` collection.  Result-slot maps are
association lists from model key to slot record (Python dicts with unique
keys); a `set(..., merge=True)` write is modelled by computing the resulting
document explicitly, which is what the sources do client-side (they read the
existing slot map, insert the new slot, and write the whole map back) or what
Firestore's recursive merge produces for the single-field writes. -/

/-- The `status` enumeration of a WorkItem. -/
inductive Status where
  | pending
  | processing
  | inferred
  | error
  | liked
deriving DecidableEq

/-- Metadata block stored with every result slot (`save_to_firestore` and the
backfill scripts populate different subsets of these keys, absent keys are
`none`). -/
structure SlotMetadata where
  model : String
  backend : String
  language_repository : Option String := none
  vision_repository : Option String := none
  repository : Option String := none
  language_file : Option String := none
  vision_file : Option String := none
  prompt : Option String := none
  caption_source : Option String := none
  inference_time : Option ℚ := none
  createdAt : Nat
deriving DecidableEq

/-- A `captions.<model_key>` slot. -/
structure CaptionSlot where
  metadata : SlotMetadata
  caption : String
deriving DecidableEq

/-- A `moderations.<model_key>` slot. -/
structure ModerationSlot where
  metadata : SlotMetadata
  raw_result : String
  result : Option Nat
  explanation : Option String := none
deriving DecidableEq

/-- One entry of the `characters` list of a parsed age estimation. -/
structure AgeCharacter where
  most_likely_age : Option Nat
deriving DecidableEq, Inhabited

/-- A validated age-estimation payload (a JSON object with at least the
`characters_detected` and `characters` keys). -/
structure AgeResult where
  characters_detected : Nat
  characters : List AgeCharacter
deriving DecidableEq

/-- An `ageEstimations.<model_key>` slot. -/
structure AgeSlot where
  metadata : SlotMetadata
  raw_result : String
  result : AgeResult
  main_character_age : Option Nat
deriving DecidableEq

/-- Result dictionary returned by `PixAITagger.tag_image`: confidence level ↦
category ↦ tag list, category ↦ tag ↦ score, plus the inference time. -/
structure TagResult where
  tag_list : List (String × List (String × List String))
  raw_scores : List (String × List (String × ℚ))
  inference_time : ℚ
deriving DecidableEq

/-- A `tags.<model_key>` slot as written by `save_pixai_tags_to_firestore`. -/
structure TagSlot where
  tag_list : List (String × List (String × List String))
  raw_scores : List (String × List (String × ℚ))
  metadata : SlotMetadata
deriving DecidableEq

/-- One document of the `images` collection (fields touched by the modelled
operations; absent fields are `none` / empty maps). -/
structure Doc where
  status : Option Status := none
  key : Option String := none
  type : Option String := none
  postId : Option String := none
  captions : List (String × CaptionSlot) := []
  moderations : List (String × ModerationSlot) := []
  ageEstimations : List (String × AgeSlot) := []
  tags : List (String × TagSlot) := []
deriving DecidableEq

/-- A document with no fields set (the `existing_data = {}` case). -/
def emptyDoc : Doc := {}

/-- The `images` collection: document id ↦ document. -/
def Store := List (String × Doc)
deriving instance DecidableEq for Store

/-- Dictionary lookup (first matching key). -/
def assocGet {β : Type} (l : List (String × β)) (k : String) : Option β :=
  (l.find? (fun p => p.1 = k)).map (·.2)

/-- Dictionary update `d[k] = v`: replaces the first binding of `k`, appends
when absent. -/
def assocSet {β : Type} (l : List (String × β)) (k : String) (v : β) :
    List (String × β) :=
  match l with
  | [] => [(k, v)]
  | (k', v') :: rest =>
    if k' = k then (k, v) :: rest else (k', v') :: assocSet rest k v

/-- Document fetch `db.collection('images').document(id).get()`. -/
def storeGet (s : Store) (id : String) : Option Doc :=
  assocGet s id

/-- Document write (create or replace the full document value). -/
def storeSet (s : Store) (id : String) (d : Doc) : Store :=
  assocSet s id d

/-! ## `worker/main.py` — claim coordinator -/

/-- The documents with `status == 'pending'` (query used both by the count
gate and inside the transaction). -/
def pendingDocs (s : Store) : List (String × Doc) :=
  s.filter (fun p => p.2.status = some Status.pending)

/-- `update_status_processing` from `main.py`: inside one transaction, read
the pending set and rewrite each member's status to `processing`; the
pre-transaction snapshot is returned. -/
def update_status_processing (s : Store) : List (String × Doc) × Store :=
  (pendingDocs s,
   s.map (fun p =>
     if p.2.status = some Status.pending then
       (p.1, { p.2 with status := some Status.processing })
     else p))

/-- The claim phase of `onImageCreated` from `main.py`: count the pending
documents; when the count is below 100 return immediately with no claimed
items and no mutation, otherwise run `update_status_processing`
transactionally.  Concurrent invocations are modelled as serializable atomic
steps, i.e. sequential compositions of this function. -/
def claimPendingBatch (s : Store) : List (String × Doc) × Store :=
  if (pendingDocs s).length < 100 then ([], s)
  else update_status_processing s

/-! ## `worker/vlm_captioner.py` — persistence and age-estimation parsing -/

/-- Percent-encoding of one byte as `%XX`. -/
def percentEncodeByte (b : Nat) : List Char :=
  ['%', (Nat.digitChar (b / 16)).toUpper, (Nat.digitChar (b % 16)).toUpper]

/-- UTF-8 bytes of one code point. -/
def utf8Bytes (c : Char) : List Nat :=
  let n := c.toNat
  if n < 0x80 then [n]
  else if n < 0x800 then [0xC0 + n / 64, 0x80 + n % 64]
  else if n < 0x10000 then [0xE0 + n / 4096, 0x80 + n / 64 % 64, 0x80 + n % 64]
  else [0xF0 + n / 262144, 0x80 + n / 4096 % 64, 0x80 + n / 64 % 64, 0x80 + n % 64]

/-- Python `urllib.parse.quote(s, safe='')`: unreserved characters
(letters, digits, `_`, `.`, `-`, `~`) kept, everything else percent-encoded
byte by byte. -/
def percentEncode (s : String) : String :=
  (s.toList.flatMap (fun c =>
    if c.isAlphanum ∨ c = '_' ∨ c = '.' ∨ c = '-' ∨ c = '~' then [c]
    else (utf8Bytes c).flatMap percentEncodeByte)).asString

/-- Model configuration dictionary (an entry of `MODELS`). -/
structure ModelConfig where
  name : String
  backend : String
  repository : Option String := none
  language_repository : Option String := none
  vision_repository : Option String := none
  language_file : Option String := none
  vision_file : Option String := none
deriving DecidableEq

/-- Prompt text loaded from `prompts/caption.txt` (contents external). -/
def CAPTION_PROMPT : String := "caption prompt"

/-- Prompt text loaded from `prompts/moderation.txt` (contents external). -/
def MODERATION_PROMPT : String := "moderation prompt"

/-- Prompt text loaded from `prompts/age_estimation.txt` (contents external). -/
def AGE_ESTIMATION_PROMPT : String := "age estimation prompt"

/-- First index of `c` in `cs` (Python `str.find`, `none` for -1). -/
def pyFind (cs : List Char) (c : Char) : Option Nat :=
  cs.findIdx? (· = c)

/-- Last index of `c` in `cs` (Python `str.rfind`, `none` for -1). -/
def pyRfind (cs : List Char) (c : Char) : Option Nat :=
  (cs.reverse.findIdx? (· = c)).map (fun i => cs.length - 1 - i)

/-- `parse_age_estimation` from `vlm_captioner.py`.  `jsonLoads` abstracts
the external `json.loads` call together with the subsequent isinstance/field
validation (it yields a validated `AgeResult` or `none`); the truthiness
check, stripping and JSON-boundary search are translated from the source. -/
def parse_age_estimation (jsonLoads : List Char → Option AgeResult)
    (raw_response : String) : Option AgeResult :=
  if raw_response = "" then none
  else
    let response := pyStripList raw_response.toList
    match pyFind response '{' , pyRfind response '}' with
    | some startIdx, some endIdx =>
      let jsonStr := (response.drop startIdx).take (endIdx + 1 - startIdx)
      jsonLoads jsonStr
    | _, _ => none

/-- `save_to_firestore` from `vlm_captioner.py`: builds the caption and
moderation slots (and the age-estimation slot when both raw and parsed age
values are present), inserts them into the slot maps read from the existing
document, and merge-writes the result.  `now` stands for
`datetime.now(timezone.utc)`. -/
def save_to_firestore (store : Store) (imageName modelKey : String)
    (modelConfig : ModelConfig) (caption : String) (moderationRaw : String)
    (moderationResult : Option Nat) (explanation : Option String := none)
    (ageEstimationRaw : Option String := none)
    (ageEstimationResult : Option AgeResult := none) (now : Nat := 0) : Store :=
  let s3Key := "twitter/" ++ imageName
  let docId := percentEncode s3Key
  let languageRepo := modelConfig.language_repository.orElse (fun _ => modelConfig.repository)
  let visionRepo := modelConfig.vision_repository.orElse (fun _ => modelConfig.repository)
  let meta (prompt : String) : SlotMetadata :=
    { model := modelConfig.name
      backend := modelConfig.backend
      language_repository := languageRepo
      vision_repository := visionRepo
      language_file := modelConfig.language_file
      vision_file := modelConfig.vision_file
      prompt := some prompt
      createdAt := now }
  let captionData : CaptionSlot := { metadata := meta CAPTION_PROMPT, caption := caption }
  let moderationData : ModerationSlot :=
    { metadata := meta MODERATION_PROMPT
      raw_result := moderationRaw
      result := moderationResult
      explanation := explanation }
  let existingData := (storeGet store docId).getD emptyDoc
  let captions := assocSet existingData.captions modelKey captionData
  let moderations := assocSet existingData.moderations modelKey moderationData
  let ageEstimations :=
    match ageEstimationRaw, ageEstimationResult with
    | some raw, some res =>
      let mainCharacterAge :=
        if 0 < res.characters_detected ∧ 0 < res.characters.length then
          (res.characters.head!).most_likely_age
        else none
      let ageData : AgeSlot :=
        { metadata := meta AGE_ESTIMATION_PROMPT
          raw_result := raw
          result := res
          main_character_age := mainCharacterAge }
      assocSet existingData.ageEstimations modelKey ageData
    | _, _ => existingData.ageEstimations
  storeSet store docId
    { existingData with
        captions := captions
        moderations := moderations
        ageEstimations := ageEstimations }

/-! ## `worker/backfill_age_estimation.py` -/

/-- `process_image_age_estimation` from `backfill_age_estimation.py`: look up
the source caption, run text-only generation (`serverResponse` abstracts the
`chat_text_only_llama_api` call), parse the result, and merge-write the
age-estimation slot.  Every failure (missing key, missing caption, failed
generation, failed parse) returns `false` with the store untouched. -/
def process_image_age_estimation (jsonLoads : List Char → Option AgeResult)
    (store : Store) (docId : String) (doc : Doc)
    (captionModelKey ageModelKey : String) (ageModelConfig : ModelConfig)
    (serverResponse : Option String) (now : Nat := 0) : Bool × Store :=
  match doc.key with
  | none => (false, store)
  | some s3Key =>
    if s3Key = "" then (false, store)
    else
      match (assocGet doc.captions captionModelKey).map (·.caption) with
      | none => (false, store)
      | some existingCaption =>
        if existingCaption = "" then (false, store)
        else
          match serverResponse with
          | none => (false, store)
          | some ageEstimationRaw =>
            if ageEstimationRaw = "" then (false, store)
            else
              match parse_age_estimation jsonLoads ageEstimationRaw with
              | none => (false, store)
              | some ageEstimationResult =>
                let languageRepo := ageModelConfig.language_repository.orElse
                  (fun _ => ageModelConfig.repository)
                let ageEstimationData : AgeSlot :=
                  { metadata :=
                      { model := ageModelConfig.name
                        backend := ageModelConfig.backend
                        language_repository := languageRepo
                        language_file := ageModelConfig.language_file
                        prompt := some AGE_ESTIMATION_PROMPT
                        caption_source := some captionModelKey
                        createdAt := now }
                    raw_result := ageEstimationRaw
                    result := ageEstimationResult
                    main_character_age :=
                      if 0 < ageEstimationResult.characters_detected ∧
                          0 < ageEstimationResult.characters.length then
                        (ageEstimationResult.characters.head!).most_likely_age
                      else none }
                let base := (storeGet store docId).getD emptyDoc
                (true,
                 storeSet store docId
                   { base with
                       ageEstimations :=
                         assocSet base.ageEstimations ageModelKey ageEstimationData })

/-! ## `worker/backfill_pixai_tags.py` -/

/-- `MODEL_KEY` from `backfill_pixai_tags.py`. -/
def PIXAI_MODEL_KEY : String := "pixai"

/-- `MODEL_CONFIG` from `backfill_pixai_tags.py`. -/
def PIXAI_MODEL_CONFIG : ModelConfig :=
  { name := "PixAI Tagger v0.9"
    backend := "pytorch"
    repository := some "pixai-labs/pixai-tagger-v0.9" }

/-- `get_firestore_doc_id` from `backfill_pixai_tags.py`. -/
def get_firestore_doc_id (imageName : String) : String :=
  percentEncode ("twitter/" ++ imageName)

/-- `check_if_tags_exist` from `backfill_pixai_tags.py`. -/
def check_if_tags_exist (store : Store) (docId : String) : Bool :=
  match storeGet store docId with
  | none => false
  | some data => (assocGet data.tags PIXAI_MODEL_KEY).isSome

/-- `save_pixai_tags_to_firestore` from `backfill_pixai_tags.py`: builds the
tag slot, inserts it into the tag map of the existing document, and
merge-writes the result. -/
def save_pixai_tags_to_firestore (store : Store) (imageName : String)
    (result : TagResult) (now : Nat := 0) : Store :=
  let docId := get_firestore_doc_id imageName
  let tagData : TagSlot :=
    { tag_list := result.tag_list
      raw_scores := result.raw_scores
      metadata :=
        { model := PIXAI_MODEL_CONFIG.name
          backend := PIXAI_MODEL_CONFIG.backend
          repository := PIXAI_MODEL_CONFIG.repository
          inference_time := some result.inference_time
          createdAt := now } }
  let existingData := (storeGet store docId).getD emptyDoc
  let tags := assocSet existingData.tags PIXAI_MODEL_KEY tagData
  storeSet store docId { existingData with tags := tags }

/-- One iteration of the driver loop of `backfill_pixai_tags`: skip the image
when `skip_existing` is set and the document already has the PixAI tag slot,
otherwise tag it (`tagResult` abstracts `tagger.tag_image`) and persist. -/
def backfill_pixai_step (store : Store) (imageName : String)
    (skipExisting : Bool) (tagResult : TagResult) (now : Nat := 0) : Store :=
  let docId := get_firestore_doc_id imageName
  if skipExisting && check_if_tags_exist store docId then store
  else save_pixai_tags_to_firestore store imageName tagResult now

/-! ## Auxiliary definitions used by the theorems -/

/-- Strict lexicographic order on (window length, start position) pairs. -/
def lexLtPair (p q : Nat × Nat) : Prop :=
  p.1 < q.1 ∨ (p.1 = q.1 ∧ p.2 < q.2)

/-- The candidate windows scanned by strategy 1, in scan order: sequence
length (outer loop) ascending, start position (inner loop) ascending. -/
def s1Pairs (words : List (List Char)) (threshold : Nat) : List (Nat × Nat) :=
  (pyRange 3 (min 51 (words.length / threshold + 1))).flatMap (fun seqLen =>
    (List.range (words.length - seqLen * threshold)).map (Prod.mk seqLen))

/-- The candidate windows scanned by strategy 2, in scan order: pattern
length (outer loop) ascending, start position (inner loop) ascending. -/
def s2Pairs (text : List Char) (threshold : Nat) : List (Nat × Nat) :=
  (pyRange 2 20).flatMap (fun patLen =>
    (List.range (text.length - patLen * threshold)).map (Prod.mk patLen))

/-- Text witnessing that scan order is by window length before position: a
4-gram phrase repeated 3 times, then a 3-gram phrase repeated 3 times, then a
padding word. -/
def lengthBeforePositionText : List Char :=
  ("aaaa bbbb cccc dddd aaaa bbbb cccc dddd aaaa bbbb cccc dddd " ++
   "eee fff ggg eee fff ggg eee fff ggg zzzz").toList

/-- A document whose only field is `status = 'pending'`. -/
def pendingOnlyDoc : Doc := { status := some Status.pending }

/-- A store of 100 pending documents (threshold-sized backlog example). -/
def exampleStore100 : Store :=
  (List.range 100).map (fun i => (toString i, pendingOnlyDoc))

/-- Metadata value used in example documents. -/
def exampleMeta : SlotMetadata :=
  { model := "Huihui MiniCPM-V 4.5 Abliterated (F16)", backend := "llama.cpp", createdAt := 0 }

/-- Example document with a MiniCPM caption and no age estimation. -/
def exampleCaptionedDoc : Doc :=
  { status := some Status.liked
    key := some "twitter/example.png"
    captions := [("minicpm", { metadata := exampleMeta, caption := "a cat" })] }

/-- The `MODELS["qwen3"]` configuration from `vlm_captioner.py`. -/
def qwen3Config : ModelConfig :=
  { name := "Qwen3-32B (Q6_K)"
    backend := "llama.cpp"
    repository := some "Qwen/Qwen3-32B-GGUF"
    language_file := some "Qwen3-32B-Q6_K.gguf" }

/-- The `MODELS["minicpm"]` configuration from `vlm_captioner.py`. -/
def minicpmConfig : ModelConfig :=
  { name := "Huihui MiniCPM-V 4.5 Abliterated (F16)"
    backend := "llama.cpp"
    repository := some "huihui-ai/Huihui-MiniCPM-V-4_5-abliterated"
    language_file := some "GGUF/ggml-model-f16.gguf"
    vision_file := some "GGUF/mmproj-model-f16.gguf" }

/-- An example tagger output. -/
def exampleTagResult : TagResult :=
  { tag_list := [("high_confidence", [("feature", ["tag_a"]), ("character", []), ("ip", [])])]
    raw_scores := [("feature", [("tag_a", 0.9)])]
    inference_time := 1 }

/-! ## Theorems -/

/-- After `update_status_processing`, no document is pending any more. -/
theorem pendingDocs_update_status_processing (s : Store) :
    pendingDocs (update_status_processing s).2 = [] := by
  simp only [update_status_processing, pendingDocs]
  rw [List.filter_eq_nil_iff]
  intro p hp
  obtain ⟨q, _, rfl⟩ := List.mem_map.1 hp
  by_cases h : q.2.status = some Status.pending <;> simp [h]

/-- C7: if the number of pending WorkItems is below the threshold 100, the
claim operation claims no items and performs no store mutation: every
document (status and all other fields) is returned unchanged. -/
theorem claim_below_threshold_no_mutation (s : Store)
    (h : (pendingDocs s).length < 100) :
    claimPendingBatch s = ([], s) := by
  simp [claimPendingBatch, h]

/-- Witness for `claim_below_threshold_no_mutation` at a one-document store. -/
theorem claim_below_threshold_no_mutation_witness :
    (pendingDocs [("doc", pendingOnlyDoc)]).length < 100 ∧
      claimPendingBatch [("doc", pendingOnlyDoc)] = ([], [("doc", pendingOnlyDoc)]) :=
  ⟨by decide, claim_below_threshold_no_mutation _ (by decide)⟩

/-- C1: with at least 100 pending items, two invocations of the claim
operation against the same store (serialized atomically, in either order —
both orders are instances of this statement) claim complementary sets: their
concatenation is exactly the initial pending set and no WorkItem is claimed
twice. -/
theorem claim_concurrent_no_double_claim (s : Store)
    (h : 100 ≤ (pendingDocs s).length) :
    (claimPendingBatch s).1 ++ (claimPendingBatch (claimPendingBatch s).2).1
        = pendingDocs s ∧
      (claimPendingBatch s).1.Disjoint (claimPendingBatch (claimPendingBatch s).2).1 := by
  have h1 : claimPendingBatch s = (pendingDocs s, (update_status_processing s).2) := by
    simp [claimPendingBatch, Nat.not_lt.2 h, update_status_processing]
  have h2 : claimPendingBatch (update_status_processing s).2
      = ([], (update_status_processing s).2) := by
    apply claim_below_threshold_no_mutation
    rw [pendingDocs_update_status_processing]
    decide
  rw [h1]
  simp only [h2]
  exact ⟨by simp, by simp [List.Disjoint]⟩

/-- Witness for `claim_concurrent_no_double_claim` at a store of 100 pending
documents. -/
theorem claim_concurrent_no_double_claim_witness :
    100 ≤ (pendingDocs exampleStore100).length ∧
      ((claimPendingBatch exampleStore100).1 ++
          (claimPendingBatch (claimPendingBatch exampleStore100).2).1
          = pendingDocs exampleStore100 ∧
        (claimPendingBatch exampleStore100).1.Disjoint
          (claimPendingBatch (claimPendingBatch exampleStore100).2).1) :=
  ⟨by decide, claim_concurrent_no_double_claim _ (by decide)⟩

/-- Loop-step lemma: an iteration whose server outcome advances (per
`attemptAdvances`) behaves like the loop on the remaining attempts. -/
theorem runAttempts_cons_advance (server : Nat → GenRequest → ServerResult)
    (det : String → Bool × Option String × Nat) (msgs : List ChatMessage)
    (img : String) (maxRetries a : Nat) (rest : List Nat)
    (h : attemptAdvances det maxRetries a (server a (mkRequest msgs img a)) = true) :
    runAttempts server det msgs img maxRetries (a :: rest)
      = runAttempts server det msgs img maxRetries rest := by
  cases hs : server a (mkRequest msgs img a) with
  | exn => rw [hs] at h; simp [attemptAdvances] at h
  | response status choices =>
    rw [hs] at h
    simp only [attemptAdvances, Bool.and_eq_true, decide_eq_true_eq] at h
    obtain ⟨h200, hm⟩ := h
    subst h200
    simp only [runAttempts, hs, if_pos]
    cases choices with
    | none => rfl
    | some cs =>
      cases cs with
      | nil => rfl
      | cons c cs' =>
        simp only [Bool.and_eq_true, decide_eq_true_eq] at hm
        simp [hm.1, hm.2]

/-- Loop-step lemma: an iteration whose server outcome is a transport failure
returns `none` for the whole call. -/
theorem runAttempts_cons_transport_failure (server : Nat → GenRequest → ServerResult)
    (det : String → Bool × Option String × Nat) (msgs : List ChatMessage)
    (img : String) (maxRetries a : Nat) (rest : List Nat)
    (h : transportFailure (server a (mkRequest msgs img a)) = true) :
    runAttempts server det msgs img maxRetries (a :: rest) = none := by
  cases hs : server a (mkRequest msgs img a) with
  | exn => simp [runAttempts, hs]
  | response status choices =>
    rw [hs] at h
    simp only [transportFailure, decide_eq_true_eq] at h
    simp [runAttempts, hs, h]

/-- Over the attempt suffix `range' j n` with `j + n = maxRetries`, an
always-repetitive detector and an always-successful server still yield a
result: the final attempt returns its content despite the repetition flag. -/
theorem runAttempts_always_repetitive_isSome
    (server : Nat → GenRequest → ServerResult)
    (det : String → Bool × Option String × Nat) (msgs : List ChatMessage)
    (img : String) (maxRetries : Nat)
    (hdet : ∀ s, (det s).1 = true)
    (hsrv : ∀ k req, ∃ c cs, server k req = ServerResult.response 200 (some (c :: cs))) :
    ∀ n j, j + n = maxRetries → 1 ≤ n →
      (runAttempts server det msgs img maxRetries (List.range' j n)).isSome = true := by
  intro n
  induction n with
  | zero => omega
  | succ m ih =>
    intro j hj _
    obtain ⟨c, cs, hs⟩ := hsrv j (mkRequest msgs img j)
    rw [List.range'_succ]
    by_cases hlt : j < maxRetries - 1
    · have hm1 : 1 ≤ m := by omega
      simp only [runAttempts, hs, if_pos rfl, hdet, if_pos hlt]
      simpa using ih (j + 1) (by omega) hm1
    · simp [runAttempts, hs, hdet, hlt]

/-- C4: with a detector that always reports repetitive and a server whose
responses always succeed with content, the generation call still returns
non-null text after exhausting its attempts — a repetition loop on the final
attempt is returned, not surfaced as an error. -/
theorem generate_always_repetitive_returns_text
    (server : Nat → GenRequest → ServerResult)
    (det : String → Bool × Option String × Nat) (msgs : List ChatMessage)
    (img : String) (maxRetries : Nat)
    (hdet : ∀ s, (det s).1 = true)
    (hsrv : ∀ k req, ∃ c cs, server k req = ServerResult.response 200 (some (c :: cs)))
    (hmax : 1 ≤ maxRetries) :
    (chat_with_image_llama_api server det msgs img maxRetries).isSome = true := by
  rw [chat_with_image_llama_api, List.range_eq_range']
  exact runAttempts_always_repetitive_isSome server det msgs img maxRetries hdet hsrv
    maxRetries 0 (by omega) hmax

/-- Witness for `generate_always_repetitive_returns_text` with the default
`MAX_RETRIES = 3`. -/
theorem generate_always_repetitive_returns_text_witness :
    (chat_with_image_llama_api
        (fun _ _ => ServerResult.response 200 (some ["hello"]))
        (fun _ => (true, none, 0)) [] "" 3).isSome = true :=
  generate_always_repetitive_returns_text
    (fun _ _ => ServerResult.response 200 (some ["hello"]))
    (fun _ => (true, none, 0)) [] "" 3
    (fun _ => rfl) (fun _ _ => ⟨"hello", [], rfl⟩) (by decide)

/-- Walk lemma for transport failures: if every attempt before `k` advances
and attempt `k` is a transport failure, the loop over the attempt suffix
`range' j n` returns `none`, for any server agreeing with `server` up to
attempt `k` (so the result is independent of all later attempts). -/
theorem runAttempts_transport_failure_walk
    (server server' : Nat → GenRequest → ServerResult)
    (det : String → Bool × Option String × Nat) (msgs : List ChatMessage)
    (img : String) (maxRetries k : Nat)
    (hagree : ∀ i, i ≤ k → server' i = server i)
    (hadv : ∀ i, i < k →
      attemptAdvances det maxRetries i (server i (mkRequest msgs img i)) = true)
    (hfail : transportFailure (server k (mkRequest msgs img k)) = true) :
    ∀ n j, j + n = maxRetries → j ≤ k → k < maxRetries →
      runAttempts server' det msgs img maxRetries (List.range' j n) = none := by
  intro n
  induction n with
  | zero => omega
  | succ m ih =>
    intro j hj hjk hk
    rw [List.range'_succ]
    by_cases hje : j = k
    · subst hje
      apply runAttempts_cons_transport_failure
      rw [hagree j le_rfl]
      exact hfail
    · have hjlt : j < k := by omega
      rw [runAttempts_cons_advance]
      · exact ih (j + 1) (by omega) (by omega) hk
      · rw [hagree j (by omega)]
        exact hadv j hjlt

/-- C5: if every attempt before `k` advances and the request on attempt `k`
yields a non-success status or a transport exception, the generation call
returns null immediately, and the result does not depend on the server's
behaviour on any later attempt (no further retry attempt is consumed). -/
theorem generate_transport_failure_aborts
    (server : Nat → GenRequest → ServerResult)
    (det : String → Bool × Option String × Nat) (msgs : List ChatMessage)
    (img : String) (maxRetries k : Nat)
    (hk : k < maxRetries)
    (hadv : ∀ i, i < k →
      attemptAdvances det maxRetries i (server i (mkRequest msgs img i)) = true)
    (hfail : transportFailure (server k (mkRequest msgs img k)) = true) :
    chat_with_image_llama_api server det msgs img maxRetries = none ∧
      ∀ server' : Nat → GenRequest → ServerResult,
        (∀ i, i ≤ k → server' i = server i) →
          chat_with_image_llama_api server' det msgs img maxRetries = none := by
  have hgen : ∀ server' : Nat → GenRequest → ServerResult,
      (∀ i, i ≤ k → server' i = server i) →
        chat_with_image_llama_api server' det msgs img maxRetries = none := by
    intro server' hagree
    rw [chat_with_image_llama_api, List.range_eq_range']
    exact runAttempts_transport_failure_walk server server' det msgs img maxRetries k
      hagree hadv hfail maxRetries 0 (by omega) (by omega) hk
  exact ⟨hgen server (fun _ _ => rfl), hgen⟩

/-- Witness for `generate_transport_failure_aborts`: a server answering 500
on attempt 0 of 3. -/
theorem generate_transport_failure_aborts_witness :
    chat_with_image_llama_api (fun _ _ => ServerResult.response 500 none)
        (fun _ => (false, none, 0)) [] "" 3 = none ∧
      ∀ server' : Nat → GenRequest → ServerResult,
        (∀ i, i ≤ 0 → server' i = (fun (_ : Nat) (_ : GenRequest) =>
            ServerResult.response 500 none) i) →
          chat_with_image_llama_api server' (fun _ => (false, none, 0)) [] "" 3 = none :=
  generate_transport_failure_aborts (fun _ _ => ServerResult.response 500 none)
    (fun _ => (false, none, 0)) [] "" 3 0 (by decide)
    (fun i hi => absurd hi (Nat.not_lt_zero i)) (by decide)

/-- An empty-choices 200 response always satisfies `attemptAdvances`. -/
theorem emptyChoices200_advances (det : String → Bool × Option String × Nat)
    (maxRetries j : Nat) (r : ServerResult) (h : emptyChoices200 r = true) :
    attemptAdvances det maxRetries j r = true := by
  cases r with
  | exn => simp [emptyChoices200] at h
  | response status choices =>
    simp only [emptyChoices200, Bool.and_eq_true, decide_eq_true_eq] at h
    obtain ⟨h200, hm⟩ := h
    subst h200
    cases choices with
    | none => simp [attemptAdvances]
    | some cs =>
      cases cs with
      | nil => simp [attemptAdvances]
      | cons c cs' => simp at hm

/-- C10: when every server response is HTTP 200 with a missing or empty
`choices` list, each loop iteration silently advances to the next attempt
(neither returning the response nor aborting as a transport failure), and
after all attempts are exhausted the call returns null. -/
theorem generate_empty_choices_silent_advance
    (server : Nat → GenRequest → ServerResult)
    (det : String → Bool × Option String × Nat) (msgs : List ChatMessage)
    (img : String) (maxRetries : Nat)
    (h : ∀ k req, emptyChoices200 (server k req) = true) :
    chat_with_image_llama_api server det msgs img maxRetries = none ∧
      ∀ a rest, runAttempts server det msgs img maxRetries (a :: rest)
          = runAttempts server det msgs img maxRetries rest := by
  have hstep : ∀ a rest, runAttempts server det msgs img maxRetries (a :: rest)
      = runAttempts server det msgs img maxRetries rest := by
    intro a rest
    exact runAttempts_cons_advance server det msgs img maxRetries a rest
      (emptyChoices200_advances det maxRetries a _ (h a _))
  have hnone : ∀ l, runAttempts server det msgs img maxRetries l = none := by
    intro l
    induction l with
    | nil => rfl
    | cons a rest ih => rw [hstep a rest]; exact ih
  exact ⟨hnone (List.range maxRetries), hstep⟩

/-- Witness for `generate_empty_choices_silent_advance` with the default
`MAX_RETRIES = 3`. -/
theorem generate_empty_choices_silent_advance_witness :
    chat_with_image_llama_api (fun _ _ => ServerResult.response 200 (some []))
        (fun _ => (false, none, 0)) [] "" 3 = none ∧
      ∀ a rest, runAttempts (fun _ _ => ServerResult.response 200 (some []))
          (fun _ => (false, none, 0)) [] "" 3 (a :: rest)
          = runAttempts (fun _ _ => ServerResult.response 200 (some []))
            (fun _ => (false, none, 0)) [] "" 3 rest :=
  generate_empty_choices_silent_advance (fun _ _ => ServerResult.response 200 (some []))
    (fun _ => (false, none, 0)) [] "" 3 (fun _ _ => rfl)

/-- C6: the sampling parameters sent on attempt `k` are
`temperature = min (0.7 + k * 0.05) 1` and `top_p = min (0.8 + k * 0.05)
0.95`; each is bounded by its ceiling and strictly increases from one attempt
to the next as long as it is below the ceiling. -/
theorem generate_sampling_params_monotone (msgs : List ChatMessage) (img : String)
    (k : Nat) :
    (mkRequest msgs img k).temperature = min (0.7 + (k : ℚ) * 0.05) 1 ∧
      (mkRequest msgs img k).top_p = min (0.8 + (k : ℚ) * 0.05) 0.95 ∧
      ((mkRequest msgs img k).temperature < 1 →
        (mkRequest msgs img k).temperature < (mkRequest msgs img (k + 1)).temperature) ∧
      ((mkRequest msgs img k).top_p < 0.95 →
        (mkRequest msgs img k).top_p < (mkRequest msgs img (k + 1)).top_p) ∧
      (mkRequest msgs img k).temperature ≤ 1 ∧
      (mkRequest msgs img k).top_p ≤ 0.95 := by
  have e1 : ∀ j : Nat, (mkRequest msgs img j).temperature = min (0.7 + (j : ℚ) * 0.05) 1 := by
    intro j
    simp only [mkRequest]
    norm_num
  have e2 : ∀ j : Nat, (mkRequest msgs img j).top_p = min (0.8 + (j : ℚ) * 0.05) 0.95 := by
    intro j
    simp only [mkRequest]
  refine ⟨e1 k, e2 k, ?_, ?_, ?_, ?_⟩
  · intro h
    rw [e1 k] at h ⊢
    rw [e1 (k + 1)]
    have hlt : 0.7 + (k : ℚ) * 0.05 < 1 := (min_lt_iff.mp h).resolve_right (lt_irrefl 1)
    rw [min_eq_left (le_of_lt hlt)]
    apply lt_min
    · push_cast
      linarith
    · exact hlt
  · intro h
    rw [e2 k] at h ⊢
    rw [e2 (k + 1)]
    have hlt : 0.8 + (k : ℚ) * 0.05 < 0.95 :=
      (min_lt_iff.mp h).resolve_right (lt_irrefl 0.95)
    rw [min_eq_left (le_of_lt hlt)]
    apply lt_min
    · push_cast
      linarith
    · exact hlt
  · rw [e1 k]; exact min_le_right _ _
  · rw [e2 k]; exact min_le_right _ _

/-- Witness for `generate_sampling_params_monotone`: on the first retry both
parameters strictly increase. -/
theorem generate_sampling_params_monotone_witness :
    (mkRequest [] "" 0).temperature < (mkRequest [] "" 1).temperature ∧
      (mkRequest [] "" 0).top_p < (mkRequest [] "" 1).top_p := by
  have h := generate_sampling_params_monotone [] "" 0
  refine ⟨h.2.2.1 ?_, h.2.2.2.1 ?_⟩
  · rw [h.1]; norm_num
  · rw [h.2.1]; norm_num

/-- Dictionary update then lookup at the same key. -/
theorem assocGet_assocSet_self {β : Type} (l : List (String × β)) (k : String) (v : β) :
    assocGet (assocSet l k v) k = some v := by
  induction l with
  | nil => simp [assocGet, assocSet]
  | cons p rest ih =>
    by_cases h : p.1 = k
    · simp [assocGet, assocSet, h]
    · simpa [assocGet, assocSet, h] using ih

/-- Dictionary update then lookup at a different key. -/
theorem assocGet_assocSet_ne {β : Type} (l : List (String × β)) (k k' : String) (v : β)
    (h : k' ≠ k) :
    assocGet (assocSet l k v) k' = assocGet l k' := by
  induction l with
  | nil =>
    simp only [assocSet, assocGet, List.find?]
    have : (decide (k = k')) = false := by simp [Ne.symm h]
    simp [this]
  | cons p rest ih =>
    by_cases hp : p.1 = k
    · simp only [assocSet, if_pos hp]
      simp only [assocGet, List.find?]
      have h1 : (decide (k = k')) = false := by simp [Ne.symm h]
      have h2 : (decide (p.1 = k')) = false := by
        simp only [decide_eq_false_iff_not]
        rw [hp]
        exact Ne.symm h
      simp [h1, h2]
    · simp only [assocSet, if_neg hp]
      by_cases hp' : p.1 = k'
      · simp [assocGet, List.find?, hp']
      · simp only [assocGet, List.find?] at ih ⊢
        have h2 : (decide (p.1 = k')) = false := by simp [hp']
        simp only [h2]
        exact ih

/-- Document write then fetch at the same id. -/
theorem storeGet_storeSet_self (s : Store) (id : String) (d : Doc) :
    storeGet (storeSet s id d) id = some d :=
  assocGet_assocSet_self s id d

/-- Document write then fetch at a different id. -/
theorem storeGet_storeSet_ne (s : Store) (id id' : String) (d : Doc) (h : id' ≠ id) :
    storeGet (storeSet s id d) id' = storeGet s id' :=
  assocGet_assocSet_ne s id id' d h

/-- C2 (amended): raw generation output is retained by the moderation-rating
stage but not by the age-estimation stage.  (1) `save_to_firestore` always
stores the raw moderation output in the slot's `raw_result`, with the
structured `result` field equal to the parse outcome — `none` when parsing
failed.  (2) In `process_image_age_estimation`, when generation succeeded but
the structured parse fails, the function reports failure and leaves the store
completely unchanged: the raw output is not persisted anywhere. -/
theorem raw_output_retained_moderation_but_not_age :
    (∀ (store : Store) (imageName modelKey : String) (cfg : ModelConfig)
        (caption modRaw : String) (expl : Option String)
        (ageRaw : Option String) (ageRes : Option AgeResult) (now : Nat),
      (assocGet ((storeGet
            (save_to_firestore store imageName modelKey cfg caption modRaw
              (parse_moderation_rating modRaw.toList) expl ageRaw ageRes now)
            (percentEncode ("twitter/" ++ imageName))).getD emptyDoc).moderations
          modelKey).map (fun sl => (sl.raw_result, sl.result))
        = some (modRaw, parse_moderation_rating modRaw.toList)) ∧
    (∀ (jsonLoads : List Char → Option AgeResult) (store : Store)
        (docId : String) (doc : Doc) (ck ak : String) (cfg : ModelConfig)
        (raw s3k : String) (capSlot : CaptionSlot),
      doc.key = some s3k → s3k ≠ "" →
      assocGet doc.captions ck = some capSlot → capSlot.caption ≠ "" →
      raw ≠ "" →
      parse_age_estimation jsonLoads raw = none →
      process_image_age_estimation jsonLoads store docId doc ck ak cfg (some raw) 0
        = (false, store)) := by
  constructor
  · intro store imageName modelKey cfg caption modRaw expl ageRaw ageRes now
    simp only [save_to_firestore, storeGet_storeSet_self, Option.getD_some]
    rw [assocGet_assocSet_self]
    rfl
  · intro jsonLoads store docId doc ck ak cfg raw s3k capSlot hkey hk hcap hcapne hraw hparse
    simp [process_image_age_estimation, hkey, hk, hcap, hcapne, hraw, hparse]

/-- Witness for `raw_output_retained_moderation_but_not_age` at concrete
inputs (a moderation raw text with no `[[N]]` rating, and an age raw text
with no JSON object). -/
theorem raw_output_retained_moderation_but_not_age_witness :
    ((assocGet ((storeGet
          (save_to_firestore [] "example.png" "minicpm" minicpmConfig "a cat"
            "no rating here" (parse_moderation_rating "no rating here".toList)
            none none none 0)
          (percentEncode "twitter/example.png")).getD emptyDoc).moderations
        "minicpm").map (fun sl => (sl.raw_result, sl.result))
      = some ("no rating here", parse_moderation_rating "no rating here".toList)) ∧
    process_image_age_estimation (fun _ => none) [("doc0", exampleCaptionedDoc)]
        "doc0" exampleCaptionedDoc "minicpm" "qwen3" qwen3Config
        (some "no json found") 0
      = (false, [("doc0", exampleCaptionedDoc)]) :=
  ⟨raw_output_retained_moderation_but_not_age.1 [] "example.png" "minicpm"
      minicpmConfig "a cat" "no rating here" none none none 0,
   raw_output_retained_moderation_but_not_age.2 (fun _ => none)
      [("doc0", exampleCaptionedDoc)] "doc0" exampleCaptionedDoc "minicpm" "qwen3"
      qwen3Config "no json found" "twitter/example.png"
      { metadata := exampleMeta, caption := "a cat" }
      rfl (by decide) rfl (by decide) (by decide) rfl⟩

/-- C2 (counterexample to the claim as stated): for the age-estimation stage
a failed structured parse does not persist the raw output — the generation's
raw text is lost and the store is unchanged, contradicting "the raw output
string is still persisted ... for every processing stage".  The text
`"no json found"` contains no JSON object, so parsing fails for every
possible behaviour of the JSON library. -/
theorem raw_output_lost_on_age_parse_failure :
    parse_age_estimation (fun _ => none) "no json found" = none ∧
      process_image_age_estimation (fun _ => none) [("doc0", exampleCaptionedDoc)]
          "doc0" exampleCaptionedDoc "minicpm" "qwen3" qwen3Config
          (some "no json found") 0
        = (false, [("doc0", exampleCaptionedDoc)]) := by
  constructor
  · rfl
  · rfl

/-- C9: re-running the tagging driver over an item that already has the
target slot performs no store mutation at all (candidate selection skips it),
and the merge-writes of both persistence functions only touch their own
slot: every other document, every other top-level field, and every other
model key's slot are preserved, while the target slot is present afterwards. -/
theorem batch_driver_rerun_preserves_slots :
    (∀ (store : Store) (imageName : String) (r : TagResult) (now : Nat),
      check_if_tags_exist store (get_firestore_doc_id imageName) = true →
        backfill_pixai_step store imageName true r now = store) ∧
    (∀ (store : Store) (imageName : String) (r : TagResult) (now : Nat),
      let docId := get_firestore_doc_id imageName
      let base := (storeGet store docId).getD emptyDoc
      let d := (storeGet (save_pixai_tags_to_firestore store imageName r now) docId).getD
        emptyDoc
      d.status = base.status ∧ d.key = base.key ∧ d.type = base.type ∧
        d.captions = base.captions ∧ d.moderations = base.moderations ∧
        d.ageEstimations = base.ageEstimations ∧
        (assocGet d.tags PIXAI_MODEL_KEY).isSome = true ∧
        (∀ k, k ≠ PIXAI_MODEL_KEY → assocGet d.tags k = assocGet base.tags k) ∧
        (∀ id', id' ≠ docId →
          storeGet (save_pixai_tags_to_firestore store imageName r now) id'
            = storeGet store id')) ∧
    (∀ (store : Store) (imageName modelKey : String) (cfg : ModelConfig)
        (caption modRaw : String) (modRes : Option Nat) (expl : Option String)
        (now : Nat),
      let docId := percentEncode ("twitter/" ++ imageName)
      let base := (storeGet store docId).getD emptyDoc
      let d := (storeGet (save_to_firestore store imageName modelKey cfg caption modRaw
          modRes expl none none now) docId).getD emptyDoc
      d.status = base.status ∧ d.key = base.key ∧ d.type = base.type ∧
        d.tags = base.tags ∧ d.ageEstimations = base.ageEstimations ∧
        (assocGet d.captions modelKey).isSome = true ∧
        (assocGet d.moderations modelKey).isSome = true ∧
        (∀ k, k ≠ modelKey → assocGet d.captions k = assocGet base.captions k) ∧
        (∀ k, k ≠ modelKey → assocGet d.moderations k = assocGet base.moderations k) ∧
        (∀ id', id' ≠ docId →
          storeGet (save_to_firestore store imageName modelKey cfg caption modRaw
            modRes expl none none now) id' = storeGet store id')) := by
  refine ⟨?_, ?_, ?_⟩
  · intro store imageName r now h
    simp [backfill_pixai_step, h]
  · intro store imageName r now
    simp only [save_pixai_tags_to_firestore, storeGet_storeSet_self, Option.getD_some]
    refine ⟨trivial, trivial, trivial, trivial, trivial, trivial, ?_, ?_, ?_⟩
    · rw [assocGet_assocSet_self]; rfl
    · intro k hk
      exact assocGet_assocSet_ne _ _ _ _ hk
    · intro id' hid
      exact storeGet_storeSet_ne _ _ _ _ hid
  · intro store imageName modelKey cfg caption modRaw modRes expl now
    simp only [save_to_firestore, storeGet_storeSet_self, Option.getD_some]
    refine ⟨trivial, trivial, trivial, trivial, trivial, ?_, ?_, ?_, ?_, ?_⟩
    · rw [assocGet_assocSet_self]; rfl
    · rw [assocGet_assocSet_self]; rfl
    · intro k hk
      exact assocGet_assocSet_ne _ _ _ _ hk
    · intro k hk
      exact assocGet_assocSet_ne _ _ _ _ hk
    · intro id' hid
      exact storeGet_storeSet_ne _ _ _ _ hid

/-- Witness for `batch_driver_rerun_preserves_slots`: a store whose document
already carries the PixAI tag slot is returned unchanged by the driver step,
and the merge-writes at concrete inputs preserve the other slots. -/
theorem batch_driver_rerun_preserves_slots_witness :
    (backfill_pixai_step
        [(get_firestore_doc_id "example.png",
          { exampleCaptionedDoc with
              tags := [(PIXAI_MODEL_KEY,
                { tag_list := [], raw_scores := [],
                  metadata := exampleMeta })] })] "example.png" true
        exampleTagResult 0
      = [(get_firestore_doc_id "example.png",
          { exampleCaptionedDoc with
              tags := [(PIXAI_MODEL_KEY,
                { tag_list := [], raw_scores := [],
                  metadata := exampleMeta })] })]) ∧
    ((storeGet (save_pixai_tags_to_firestore [] "example.png" exampleTagResult 0)
        (get_firestore_doc_id "example.png")).getD emptyDoc).captions
      = emptyDoc.captions :=
  ⟨batch_driver_rerun_preserves_slots.1 _ "example.png" exampleTagResult 0 (by decide),
   (batch_driver_rerun_preserves_slots.2.1 [] "example.png" exampleTagResult 0).2.2.2.1⟩

/-- Splitting a run of one non-whitespace character yields a single word. -/
theorem splitWsAux_replicate (c : Char) (hc : c.isWhitespace = false) :
    ∀ (n : Nat) (acc : List Char), acc ≠ [] ∨ n ≠ 0 →
      splitWsAux (List.replicate n c) acc = [acc.reverse ++ List.replicate n c] := by
  intro n
  induction n with
  | zero =>
    intro acc hacc
    have hne : acc ≠ [] := by
      rcases hacc with h | h
      · exact h
      · exact absurd rfl h
    simp only [List.replicate, splitWsAux]
    cases acc with
    | nil => exact absurd rfl hne
    | cons a as => simp
  | succ m ih =>
    intro acc _
    rw [List.replicate_succ]
    simp only [splitWsAux, hc, Bool.false_eq_true, if_false]
    rw [ih (c :: acc) (Or.inl (by simp))]
    simp

/-- `text.split()` on a run of one non-whitespace character. -/
theorem splitWhitespace_replicate (c : Char) (hc : c.isWhitespace = false)
    (n : Nat) (hn : n ≠ 0) :
    splitWhitespace (List.replicate n c) = [List.replicate n c] := by
  rw [splitWhitespace, splitWsAux_replicate c hc n [] (Or.inr hn)]
  simp

/-- Value of the strategy-2 counter on a single-character run with the
doubled-character pattern. -/
theorem countCharRepsGo_replicate (c : Char) (n : Nat) :
    ∀ (fuel pos : Nat), (n - pos) / 2 < fuel →
      countCharRepsGo (List.replicate n c) (List.replicate 2 c) 2 fuel pos
        = (n - pos) / 2 := by
  intro fuel
  induction fuel with
  | zero => omega
  | succ f ih =>
    intro pos hfuel
    by_cases hp : pos + 2 ≤ n
    · have hslice : ((List.replicate n c).drop pos).take 2 = List.replicate 2 c := by
        rw [List.drop_replicate, List.take_replicate]
        congr 1
        omega
      have hcond : pos + 2 ≤ (List.replicate n c).length ∧
          ((List.replicate n c).drop pos).take 2 = List.replicate 2 c := by
        constructor
        · simpa using hp
        · exact hslice
      rw [countCharRepsGo, if_pos hcond]
      have hdiv : (n - pos) / 2 = (n - (pos + 2)) / 2 + 1 := by
        have h2 : n - (pos + 2) + 2 = n - pos := by omega
        have := Nat.add_div_right (n - (pos + 2)) (by omega : 0 < 2)
        omega
      rw [ih (pos + 2) (by omega)]
      omega
    · have hcond : ¬ (pos + 2 ≤ (List.replicate n c).length ∧
          ((List.replicate n c).drop pos).take 2 = List.replicate 2 c) := by
        rw [List.length_replicate]
        intro hcon
        exact hp hcon.1
      rw [countCharRepsGo, if_neg hcond]
      have : n - pos < 2 := by omega
      omega

/-- Head expansion for `pyRange`. -/
theorem pyRange_cons (a b : Nat) (h : a < b) :
    pyRange a b = a :: pyRange (a + 1) b := by
  unfold pyRange
  have hb : b - a = (b - (a + 1)) + 1 := by omega
  rw [hb, List.range_succ_eq_map, List.map_cons, List.map_map]
  congr 1
  · simp
  · apply List.map_congr_left
    intro x _
    simp [Nat.succ_add, Nat.add_comm, Nat.add_assoc, Nat.add_left_comm]

/-- Value of strategy 2 on a 100-character single-character run: the very
first candidate window (pattern length 2, position 0) already qualifies with
50 consecutive repetitions. -/
theorem strategy2_single_char_run (c : Char) :
    strategy2 (List.replicate 100 c) 3 = some ([c, c], 50) := by
  have hlen : (List.replicate 100 c).length = 100 := List.length_replicate 100 c
  have hzero : s2Check (List.replicate 100 c) 3 2 0 = some ([c, c], 50) := by
    have hpat : ((List.replicate 100 c).drop 0).take 2 = [c, c] := by
      rw [List.drop_zero, List.take_replicate]
      norm_num
      rfl
    have hcnt : countCharReps (List.replicate 100 c) [c, c] 2 (0 + 2) = 49 := by
      rw [countCharReps, hlen]
      have h2 : List.replicate 2 c = [c, c] := rfl
      rw [← h2, countCharRepsGo_replicate c 100 101 (0 + 2) (by norm_num)]
    simp only [s2Check, hpat, hcnt]
    norm_num
  have hinner : (List.range ((List.replicate 100 c).length - 2 * 3)).findSome?
      (fun i => s2Check (List.replicate 100 c) 3 2 i) = some ([c, c], 50) := by
    rw [hlen]
    have h94 : (94 : Nat) = 93 + 1 := by norm_num
    show (List.range 94).findSome? (fun i => s2Check (List.replicate 100 c) 3 2 i)
        = some ([c, c], 50)
    rw [h94, List.range_succ_eq_map, List.findSome?_cons, hzero]
  rw [strategy2, pyRange_cons 2 20 (by norm_num), List.findSome?_cons]
  rw [hinner]

/-- C3 (amended): on a single non-whitespace character repeated 100 times,
`Detect` reports repetitive, but the reported pattern is the character
doubled and the reported count is 50: strategy 2 (character patterns, length
2 first) fires before the single-character strategy 3 can run. -/
theorem detect_single_char_doubled (c : Char) (hc : c.isWhitespace = false) :
    detect_repetition_loop (List.replicate 100 c) = (true, some [c, c], 50) := by
  have hlen : (List.replicate 100 c).length = 100 := List.length_replicate 100 c
  have hguard : ¬ (List.replicate 100 c = [] ∨
      (List.replicate 100 c).length < MIN_REPETITION_LENGTH * REPETITION_THRESHOLD) := by
    rw [hlen]
    push_neg
    constructor
    · simp
    · decide
  have hwords : splitWhitespace (List.replicate 100 c) = [List.replicate 100 c] :=
    splitWhitespace_replicate c hc 100 (by norm_num)
  have hs1 : strategy1 [List.replicate 100 c] MIN_REPETITION_LENGTH
      REPETITION_THRESHOLD = none := by
    rw [strategy1, if_neg]
    simp
  rw [detect_repetition_loop, if_neg hguard, hwords]
  simp only [hs1]
  simp only [REPETITION_THRESHOLD, strategy2_single_char_run c]

/-- Witness for `detect_single_char_doubled` at the character `b`. -/
theorem detect_single_char_doubled_witness :
    ('b'.isWhitespace = false) ∧
      detect_repetition_loop (List.replicate 100 'b') = (true, some ['b', 'b'], 50) :=
  ⟨by decide, detect_single_char_doubled 'b' (by decide)⟩

/-- C3 (counterexample to the claim as stated): on `'a'` repeated 100 times,
`Detect` reports pattern `"aa"` with count 50, not pattern `"a"` with count
100 — strategy 2 fires before the single-character strategy. -/
theorem detect_single_char_not_char_100 :
    detect_repetition_loop (List.replicate 100 'a') = (true, some ['a', 'a'], 50) ∧
      detect_repetition_loop (List.replicate 100 'a') ≠ (true, some ['a'], 100) := by
  constructor
  · decide
  · decide

/-- Flattening two nested first-hit scans: scanning the outer list and, per
outer element, the inner list, equals one scan over the concatenated list of
(outer, inner) pairs in lexicographic enumeration order. -/
theorem findSome?_flatMap_map {α β γ : Type} (as : List α) (bs : α → List β)
    (f : α → β → Option γ) :
    (as.flatMap (fun a => (bs a).map (Prod.mk a))).findSome? (fun p => f p.1 p.2)
      = as.findSome? (fun a => (bs a).findSome? (fun b => f a b)) := by
  induction as with
  | nil => rfl
  | cons a rest ih =>
    rw [List.flatMap_cons, List.findSome?_append, List.findSome?_cons,
      List.findSome?_map]
    cases h : (bs a).findSome? (fun b => f a b) with
    | some v =>
      have h' : (bs a).findSome? ((fun p : α × β => f p.1 p.2) ∘ Prod.mk a) = some v := h
      simp [h', Option.or]
    | none =>
      have h' : (bs a).findSome? ((fun p : α × β => f p.1 p.2) ∘ Prod.mk a) = none := h
      simp [h', Option.or, ih]

/-- A lexicographic pair enumeration built from sorted outer and inner index
lists is sorted in the strict lexicographic order. -/
theorem pairwise_lex_flatMap (as : List Nat) (bs : Nat → List Nat)
    (has : as.Pairwise (· < ·)) (hbs : ∀ a, (bs a).Pairwise (· < ·)) :
    (as.flatMap (fun a => (bs a).map (Prod.mk a))).Pairwise lexLtPair := by
  rw [List.pairwise_flatMap]
  constructor
  · intro a _
    rw [List.pairwise_map]
    exact (hbs a).imp (fun h => Or.inr ⟨rfl, h⟩)
  · refine has.imp ?_
    intro a b hab
    intro x hx y hy
    obtain ⟨i, _, rfl⟩ := List.mem_map.1 hx
    obtain ⟨j, _, rfl⟩ := List.mem_map.1 hy
    exact Or.inl hab

/-- `pyRange` is strictly sorted. -/
theorem pyRange_pairwise_lt (a b : Nat) : (pyRange a b).Pairwise (· < ·) :=
  (List.pairwise_lt_range (b - a)).map (· + a)
    (fun _ _ h => Nat.add_lt_add_right h a)

/-- C8 (amended): the detector's scan inside each strategy is a deterministic
first-hit search over the lexicographic (window length, start position)
enumeration: the outer loop ranges over window lengths ascending and the
inner loop over start positions ascending, so the reported pattern is the
first qualifying candidate by window length first and start position second —
an earlier start position wins only among candidates of equal window
length. -/
theorem detect_scan_order_length_then_position :
    (∀ (words : List (List Char)) (minLength threshold : Nat),
      5 ≤ words.length →
        strategy1 words minLength threshold
          = (s1Pairs words threshold).findSome?
              (fun p => s1Check words minLength threshold p.1 p.2)) ∧
    (∀ (words : List (List Char)) (threshold : Nat),
      (s1Pairs words threshold).Pairwise lexLtPair) ∧
    (∀ (text : List Char) (threshold : Nat),
      strategy2 text threshold
        = (s2Pairs text threshold).findSome?
            (fun p => s2Check text threshold p.1 p.2)) ∧
    (∀ (text : List Char) (threshold : Nat),
      (s2Pairs text threshold).Pairwise lexLtPair) := by
  refine ⟨?_, ?_, ?_, ?_⟩
  · intro words minLength threshold h
    rw [strategy1, if_pos h, s1Pairs, findSome?_flatMap_map]
  · intro words threshold
    exact pairwise_lex_flatMap _ _ (pyRange_pairwise_lt _ _)
      (fun _ => List.pairwise_lt_range _)
  · intro text threshold
    rw [strategy2, s2Pairs, findSome?_flatMap_map]
  · intro text threshold
    exact pairwise_lex_flatMap _ _ (pyRange_pairwise_lt _ _)
      (fun _ => List.pairwise_lt_range _)

/-- Witness for `detect_scan_order_length_then_position` on a concrete
23-word text. -/
theorem detect_scan_order_length_then_position_witness :
    strategy1 (splitWhitespace lengthBeforePositionText) MIN_REPETITION_LENGTH
        REPETITION_THRESHOLD
      = (s1Pairs (splitWhitespace lengthBeforePositionText)
          REPETITION_THRESHOLD).findSome?
          (fun p => s1Check (splitWhitespace lengthBeforePositionText)
            MIN_REPETITION_LENGTH REPETITION_THRESHOLD p.1 p.2) :=
  detect_scan_order_length_then_position.1 _ MIN_REPETITION_LENGTH
    REPETITION_THRESHOLD (by decide)

/-- C8 (counterexample to the claim as stated): on this text a qualifying
repetition (the 4-gram `"aaaa bbbb cccc dddd"`, three consecutive copies)
starts at the earliest possible position — word index 0, character index 0 —
and is a scanned candidate, yet the detector reports the 3-gram
`"eee fff ggg"`, whose first qualifying start position is word index 12:
shorter window lengths are scanned before earlier positions, so the reported
pattern is not the qualifying one with the earliest start index. -/
theorem detect_not_earliest_position :
    detect_repetition_loop lengthBeforePositionText
        = (true, some "eee fff ggg".toList, 3) ∧
      s1Check (splitWhitespace lengthBeforePositionText) MIN_REPETITION_LENGTH
          REPETITION_THRESHOLD 4 0
        = some ("aaaa bbbb cccc dddd".toList, 3) ∧
      (4, 0) ∈ s1Pairs (splitWhitespace lengthBeforePositionText)
          REPETITION_THRESHOLD ∧
      (∀ i, i < 12 →
        s1Check (splitWhitespace lengthBeforePositionText) MIN_REPETITION_LENGTH
          REPETITION_THRESHOLD 3 i = none) ∧
      s1Check (splitWhitespace lengthBeforePositionText) MIN_REPETITION_LENGTH
          REPETITION_THRESHOLD 3 12
        = some ("eee fff ggg".toList, 3) := by
  refine ⟨by decide, by decide, by decide, by decide, by decide⟩
